import Mathlib

/-!
Verification of the task-management client library.

The backend (relational store, auth provider, LLM API) is external to the
repository; its calls are modelled by explicit parameters holding the call
outcome, while row defaults (completed = false, completed_at = null,
created_at / updated_at = now) follow the tasks migration shipped in the
repository.  Calendar dates and timestamps are encoded as naturals
(order-preserving encodings of ISO date strings and instants).
-/

namespace TaskApp

/-- Task priority, from `Priority` in src/lib/tasks.ts. -/
inductive Priority where
  | High
  | Medium
  | Low
deriving DecidableEq, Repr

/-- A stored task row, from the `Task` type in src/lib/tasks.ts and the
`tasks` table migration. -/
structure TaskRow where
  id : String
  user_id : String
  title : String
  description : Option String
  priority : Priority
  date : Nat
  completed : Bool
  completed_at : Option Nat
  created_at : Nat
  updated_at : Nat
deriving DecidableEq, Repr

/-- The partial-update record accepted by `updateTask` (src/lib/tasks.ts,
lines 262-270): each field is optional, absent fields are not sent. -/
structure TaskUpdates where
  title : Option String := none
  description : Option String := none
  priority : Option Priority := none
  date : Option Nat := none
  completed : Option Bool := none
deriving DecidableEq, Repr

/-- The row transformation performed by `updateTask` (src/lib/tasks.ts,
lines 272-282): spread the present fields, stamp `updated_at`, and set
`completed_at` to now when the update carries `completed = true`, to null
when it carries `completed = false`, leaving it alone otherwise. -/
def applyUpdates (r : TaskRow) (u : TaskUpdates) (now : Nat) : TaskRow :=
  { r with
    title := u.title.getD r.title
    description := match u.description with
      | some d => some d
      | none => r.description
    priority := u.priority.getD r.priority
    date := u.date.getD r.date
    completed := u.completed.getD r.completed
    completed_at := match u.completed with
      | some true => some now
      | some false => none
      | none => r.completed_at
    updated_at := now }

/-- The sort key used by `getTasks` (src/lib/tasks.ts, lines 137-138):
date ascending, then creation time ascending. -/
def taskKeyLe (a b : TaskRow) : Prop :=
  a.date < b.date ∨ (a.date = b.date ∧ a.created_at ≤ b.created_at)

instance : DecidableRel taskKeyLe := fun a b =>
  inferInstanceAs (Decidable (a.date < b.date ∨ (a.date = b.date ∧ a.created_at ≤ b.created_at)))

instance : IsTotal TaskRow taskKeyLe where
  total a b := by
    rcases Nat.lt_trichotomy a.date b.date with h | h | h
    · exact Or.inl (Or.inl h)
    · rcases Nat.le_total a.created_at b.created_at with h2 | h2
      · exact Or.inl (Or.inr ⟨h, h2⟩)
      · exact Or.inr (Or.inr ⟨h.symm, h2⟩)
    · exact Or.inr (Or.inl h)

instance : IsTrans TaskRow taskKeyLe where
  trans a b c hab hbc := by
    rcases hab with h1 | ⟨h1, h1'⟩
    · rcases hbc with h2 | ⟨h2, _⟩
      · exact Or.inl (h1.trans h2)
      · exact Or.inl (h2 ▸ h1)
    · rcases hbc with h2 | ⟨h2, h2'⟩
      · exact Or.inl (h1 ▸ h2)
      · exact Or.inr ⟨h1.trans h2, h1'.trans h2'⟩

/-- `getTasks` (src/lib/tasks.ts, lines 131-151): select rows with
`completed = false`, ordered by date ascending then created_at ascending. -/
def getTasks (db : List TaskRow) : List TaskRow :=
  List.insertionSort taskKeyLe (db.filter (fun r => !r.completed))

/-- The argument record of `createTask` (src/lib/tasks.ts, lines 206-211). -/
structure TaskInput where
  title : String
  description : Option String := none
  priority : Priority
  date : Nat
deriving DecidableEq, Repr

/-- `createTask` (src/lib/tasks.ts, lines 206-259): resolve the current
user (throwing `User not authenticated` when there is no session, as
`getCurrentUserId` does at lines 122-128), then insert a row with
`completed: false`, the session's user id, and `description || null`;
`completed_at`, `created_at` and `updated_at` come from the table
defaults.  `backendErr` is the datastore's insert outcome. -/
def createTask (session : Option String) (input : TaskInput) (newId : String)
    (now : Nat) (db : List TaskRow) (backendErr : Option String) :
    Except String (TaskRow × List TaskRow) :=
  match session with
  | none => .error "User not authenticated"
  | some uid =>
    match backendErr with
    | some e => .error ("Failed to create task: " ++ e)
    | none =>
      let row : TaskRow :=
        { id := newId
          user_id := uid
          title := input.title
          description := match input.description with
            | some d => if d == "" then none else some d
            | none => none
          priority := input.priority
          date := input.date
          completed := false
          completed_at := none
          created_at := now
          updated_at := now }
      .ok (row, db ++ [row])

/-- `updateTask` (src/lib/tasks.ts, lines 262-305): apply `applyUpdates`
to the row matching the id, returning the updated row; `.single()` errors
when no row matches. -/
def updateTask (db : List TaskRow) (id : String) (u : TaskUpdates)
    (now : Nat) : Except String (TaskRow × List TaskRow) :=
  match db.find? (fun t => t.id == id) with
  | none => .error "Failed to update task: no row"
  | some r =>
    .ok (applyUpdates r u now,
      db.map (fun t => if t.id == id then applyUpdates t u now else t))

/-- `deleteTask` (src/lib/tasks.ts, lines 308-322): delete the rows
matching the id. -/
def deleteTask (db : List TaskRow) (id : String) : List TaskRow :=
  db.filter (fun t => !(t.id == id))

/-- One store operation, for statements quantifying over arbitrary
sequences of create / update / delete calls. -/
inductive Op where
  | create (session : Option String) (input : TaskInput) (newId : String)
      (now : Nat) (backendErr : Option String)
  | update (id : String) (u : TaskUpdates) (now : Nat)
  | delete (id : String)

/-- Effect of one operation on the store: a failed call leaves the store
unchanged. -/
def applyOp (db : List TaskRow) : Op → List TaskRow
  | .create s i nid now be =>
    match createTask s i nid now db be with
    | .ok (_, db') => db'
    | .error _ => db
  | .update id u now =>
    match updateTask db id u now with
    | .ok (_, db') => db'
    | .error _ => db
  | .delete id => deleteTask db id

/-- Run a sequence of store operations from the empty store. -/
def runOps (ops : List Op) : List TaskRow :=
  ops.foldl applyOp []

/-- The completion invariant: `completed_at` is non-null iff `completed`
is true. -/
def TaskInv (r : TaskRow) : Prop :=
  r.completed_at.isSome = r.completed

instance (r : TaskRow) : Decidable (TaskInv r) :=
  inferInstanceAs (Decidable (r.completed_at.isSome = r.completed))

/-- Embedding of JavaScript `String.startsWith` on character lists. -/
def startsWithChars : List Char → List Char → Bool
  | [], _ => true
  | _ :: _, [] => false
  | p :: ps, c :: cs => p == c && startsWithChars ps cs

/-- Embedding of JavaScript `String.includes` on character lists. -/
def containsChars (pat : List Char) : List Char → Bool
  | [] => startsWithChars pat []
  | c :: cs => startsWithChars pat (c :: cs) || containsChars pat cs

/-- Embedding of JavaScript `message.includes(pat)`. -/
def strIncludes (s pat : String) : Bool :=
  containsChars pat.toList s.toList

/-- A thrown error value as inspected by the library: an optional
backend error code and a message. -/
structure JsError where
  code : Option String
  message : String
deriving DecidableEq, Repr

/-- A stored profile row, from the `Profile` type in src/lib/profile.ts. -/
structure Profile where
  id : String
  user_id : String
  full_name : String
  avatar_id : Option Nat
deriving DecidableEq, Repr

/-- Body of the `try` block of `getProfile` (src/lib/profile.ts, lines
14-40): throw `User not authenticated` without a session; on a backend
error, normalize `PGRST116` (row not found) and `42P01` / messages
containing `does not exist` (table missing) to null, and throw anything
else.  `backend` is the outcome of the single-row select. -/
def getProfileInner (user : Option String)
    (backend : Except JsError Profile) : Except JsError (Option Profile) :=
  match user with
  | none => .error ⟨none, "User not authenticated"⟩
  | some _ =>
    match backend with
    | .error e =>
      if e.code = some "PGRST116" then .ok none
      else if e.code = some "42P01" ∨ strIncludes e.message "does not exist" then .ok none
      else .error e
    | .ok p => .ok (some p)

/-- `getProfile` (src/lib/profile.ts, lines 13-49): the `try` body above
wrapped in the `catch` that once more maps table-missing errors to null
and rethrows everything else. -/
def getProfile (user : Option String)
    (backend : Except JsError Profile) : Except JsError (Option Profile) :=
  match getProfileInner user backend with
  | .error e =>
    if strIncludes e.message "does not exist" ∨ e.code = some "42P01" then .ok none
    else .error e
  | .ok r => .ok r

/-- `hasProfile` (src/lib/profile.ts, lines 86-96): true when
`getProfile` returns a profile, false when it returns null, and false
when it throws anything at all. -/
def hasProfile (user : Option String)
    (backend : Except JsError Profile) : Bool :=
  match getProfile user backend with
  | .ok p => p.isSome
  | .error _ => false

/-- An auth-provider error as inspected by `signOut`: a message and an
optional HTTP status. -/
structure AuthError where
  message : String
  status : Option Nat
deriving DecidableEq, Repr

/-- The session-already-invalid test of `signOut` (src/unnamed/part_000,
lines 30-35): the message contains `session`, `Session` or `403`, or the
status is 403. -/
def sessionRelated (e : AuthError) : Bool :=
  strIncludes e.message "session" || strIncludes e.message "Session" ||
    strIncludes e.message "403" || e.status == some 403

/-- `signOut` (src/unnamed/part_000, lines 21-58): resolve on success,
resolve on a session-related error, throw the error otherwise.
`result` is the outcome of the provider's sign-out call. -/
def signOut (result : Option AuthError) : Except AuthError Unit :=
  match result with
  | none => .ok ()
  | some e => if sessionRelated e then .ok () else .error e

/-- Embedding of the JavaScript guard `message.trim().length === 0`:
the message consists of whitespace only. -/
def isBlank (s : String) : Bool :=
  s.toList.all Char.isWhitespace

/-- An HTTP response of the AI route: status code and the body's
`error` or `reply` string. -/
structure AIResponse where
  status : Nat
  body : String
deriving DecidableEq, Repr

/-- The constant 500 body of the outer catch of the AI route
(src/unnamed/part_002, lines 119-122). -/
def genericAIError : String :=
  "An error occurred while processing your request. Please try again."

/-- `POST /api/ai` (src/unnamed/part_002, lines 19-124).  `auth` is the
outcome of `getServerUser` (the validated bearer token's user, null when
the token is missing or invalid); `apiKey` the `OPENAI_API_KEY`
environment variable; `message` the body's `message` field (none when
absent or not a string); `tasksResult` the context fetch outcome, which
never fails the request; `upstream` the completion call's outcome, where
a thrown error lands in the outer catch and a null reply yields the
`Failed to get response from AI` branch. -/
def POST (auth : Option String) (apiKey : Option String)
    (message : Option String) (tasksResult : Except String (List TaskRow))
    (upstream : Except String (Option String)) : AIResponse :=
  match auth with
  | none => ⟨401, "Unauthorized. Please log in."⟩
  | some _ =>
    match apiKey with
    | none => ⟨500, "Server configuration error. Please contact support."⟩
    | some _ =>
      match message with
      | none => ⟨400, "Message is required and must be a non-empty string"⟩
      | some m =>
        if isBlank m then
          ⟨400, "Message is required and must be a non-empty string"⟩
        else
          match tasksResult, upstream with
          | _, .error _ => ⟨500, genericAIError⟩
          | _, .ok none => ⟨500, "Failed to get response from AI"⟩
          | _, .ok (some reply) => ⟨200, reply⟩

/-- A task as held by the view layer, from the `Task` type in
src/unnamed/part_001, lines 387-395. -/
structure UITask where
  id : String
  title : String
  description : Option String
  badge : Priority
  date : Nat
  completed : Bool
  completedAt : Option Nat
deriving DecidableEq, Repr

/-- `dbTaskToUITask` (src/unnamed/part_001, lines 398-408); the
JavaScript `|| undefined` sends an empty description to undefined. -/
def dbTaskToUITask (r : TaskRow) : UITask :=
  { id := r.id
    title := r.title
    description := match r.description with
      | some d => if d == "" then none else some d
      | none => none
    badge := r.priority
    date := r.date
    completed := r.completed
    completedAt := r.completed_at }

/-- The controller state touched by `toggleTask`: the visible task list,
the set of animating task ids, and the completed-history buffer
(src/unnamed/part_001, lines 763-765). -/
structure ControllerState where
  tasks : List UITask
  animating : List String
  history : List UITask
deriving DecidableEq, Repr

/-- What a `toggleTask` call did, beyond its state update: nothing (no
such task), an alert with the failure (state untouched), a scheduled
delayed removal of the completed task, or an in-place uncompletion. -/
inductive ToggleOutcome where
  | noTask
  | failed (msg : String)
  | completedNow (id : String)
  | uncompleted
deriving DecidableEq, Repr

/-- `toggleTask` (src/unnamed/part_001, lines 888-930), up to the point
where control returns to the event loop: find the task; call
`updateTask` flipping its `completed` flag (outcome `upd`); on error,
alert and change nothing; on success, either mark completed (replace in
list, add to the animating set, append to history, schedule the delayed
removal) or uncomplete (replace in list, drop from history). -/
def toggleTask (s : ControllerState) (id : String)
    (upd : Except String TaskRow) : ControllerState × ToggleOutcome :=
  match s.tasks.find? (fun t => t.id == id) with
  | none => (s, .noTask)
  | some task =>
    match upd with
    | .error e => (s, .failed e)
    | .ok row =>
      let updatedTask := dbTaskToUITask row
      if !task.completed then
        ({ tasks := s.tasks.map (fun t => if t.id == id then updatedTask else t)
           animating := if s.animating.contains id then s.animating else id :: s.animating
           history := s.history ++ [updatedTask] }, .completedNow id)
      else
        ({ tasks := s.tasks.map (fun t => if t.id == id then updatedTask else t)
           animating := s.animating
           history := s.history.filter (fun t => !(t.id == id)) }, .uncompleted)

/-- Example task A of the spec's ordering example: date 2024-01-02. -/
def taskA : TaskRow :=
  { id := "A", user_id := "u", title := "A", description := none
    priority := .Medium, date := 20240102, completed := false
    completed_at := none, created_at := 1, updated_at := 1 }

/-- Example task B of the spec's ordering example: date 2024-01-01,
created before C. -/
def taskB : TaskRow :=
  { id := "B", user_id := "u", title := "B", description := none
    priority := .Medium, date := 20240101, completed := false
    completed_at := none, created_at := 2, updated_at := 2 }

/-- Example task C of the spec's ordering example: date 2024-01-01,
created after B. -/
def taskC : TaskRow :=
  { id := "C", user_id := "u", title := "C", description := none
    priority := .Medium, date := 20240101, completed := false
    completed_at := none, created_at := 3, updated_at := 3 }

/-- The task-creation argument used in concrete instantiations. -/
def sampleInput : TaskInput :=
  { title := "write report", description := none, priority := .Medium, date := 20240105 }

/-- The row `createTask (some u) sampleInput "id1" 5 [] none` inserts. -/
def createdRow : TaskRow :=
  { id := "id1", user_id := "u", title := "write report", description := none
    priority := .Medium, date := 20240105, completed := false
    completed_at := none, created_at := 5, updated_at := 5 }

/- Helper lemmas. -/

theorem applyUpdates_id (r : TaskRow) (u : TaskUpdates) (now : Nat) :
    (applyUpdates r u now).id = r.id := rfl

theorem applyUpdates_inv (r : TaskRow) (u : TaskUpdates) (now : Nat)
    (h : TaskInv r) : TaskInv (applyUpdates r u now) := by
  unfold TaskInv applyUpdates at *
  match hc : u.completed with
  | some true => simp [hc]
  | some false => simp [hc]
  | none => simpa [hc] using h

theorem applyOp_inv (db : List TaskRow) (op : Op)
    (h : ∀ r ∈ db, TaskInv r) : ∀ r ∈ applyOp db op, TaskInv r := by
  intro r hr
  cases op with
  | create s i nid now be =>
    cases s with
    | none => exact h r (by simpa [applyOp, createTask] using hr)
    | some uid =>
      cases be with
      | none =>
        simp only [applyOp, createTask] at hr
        rcases List.mem_append.mp hr with hm | hm
        · exact h r hm
        · have heq := List.mem_singleton.mp hm
          subst heq
          rfl
      | some e => exact h r (by simpa [applyOp, createTask] using hr)
  | update id u now =>
    simp only [applyOp, updateTask] at hr
    cases hf : db.find? (fun t => t.id == id) with
    | none =>
      rw [hf] at hr
      exact h r hr
    | some r0 =>
      rw [hf] at hr
      simp only [List.mem_map] at hr
      obtain ⟨t, ht, hEq⟩ := hr
      by_cases hid : (t.id == id) = true
      · rw [if_pos hid] at hEq
        exact hEq ▸ applyUpdates_inv t u now (h t ht)
      · rw [if_neg hid] at hEq
        exact hEq ▸ h t ht
  | delete id =>
    have hr' : r ∈ db ∧ ¬r.id = id := by simpa [applyOp, deleteTask] using hr
    exact h r hr'.1

theorem foldl_applyOp_inv (ops : List Op) (db : List TaskRow)
    (h : ∀ r ∈ db, TaskInv r) : ∀ r ∈ ops.foldl applyOp db, TaskInv r := by
  induction ops generalizing db with
  | nil => simpa using h
  | cons op rest ih =>
    intro r hr
    exact ih (applyOp db op) (applyOp_inv db op h) r (by simpa using hr)

theorem find?_map_applyUpdates (db : List TaskRow) (id : String)
    (u : TaskUpdates) (now : Nat) (r : TaskRow)
    (h : db.find? (fun t => t.id == id) = some r) :
    (db.map (fun t => if t.id == id then applyUpdates t u now else t)).find?
      (fun t => t.id == id) = some (applyUpdates r u now) := by
  induction db with
  | nil => simp at h
  | cons d ds ih =>
    by_cases hd : (d.id == id) = true
    · simp only [List.find?, hd] at h
      injection h with h
      subst h
      rw [List.map_cons, if_pos hd]
      have hd' : ((applyUpdates d u now).id == id) = true := hd
      simp [List.find?, hd']
    · have hdf : (d.id == id) = false := by simpa using hd
      simp only [List.find?, hdf] at h
      rw [List.map_cons, if_neg hd]
      simp only [List.find?, hdf]
      exact ih h

/- Claim theorems. -/

/-- C1: starting from the empty store, after any sequence of
`createTask` / `updateTask` / `deleteTask` calls, every stored task has a
non-null `completed_at` iff its `completed` flag is true. -/
theorem completed_at_iff_completed (ops : List Op) :
    ∀ r ∈ runOps ops, TaskInv r :=
  foldl_applyOp_inv ops [] (by simp)

theorem completed_at_iff_completed_witness :
    TaskInv createdRow :=
  completed_at_iff_completed
    [.create (some "u") sampleInput "id1" 5 none] createdRow (by decide)

/-- C2: for every store contents, `getTasks` returns exactly the rows
with `completed = false` (a permutation of that selection, so never a
completed row), sorted by date ascending then creation time ascending;
on the spec's example A(2024-01-02), B(2024-01-01), C(2024-01-01,
created after B) it returns [B, C, A]. -/
theorem getTasks_incomplete_sorted :
    (∀ db : List TaskRow,
      List.Perm (getTasks db) (db.filter (fun r => !r.completed)) ∧
      (∀ r ∈ getTasks db, r.completed = false) ∧
      List.Sorted taskKeyLe (getTasks db)) ∧
    getTasks [taskA, taskB, taskC] = [taskB, taskC, taskA] := by
  constructor
  · intro db
    refine ⟨List.perm_insertionSort taskKeyLe _, ?_,
      List.sorted_insertionSort taskKeyLe _⟩
    intro r hr
    have hr' : r ∈ db.filter (fun r => !r.completed) :=
      (List.perm_insertionSort taskKeyLe _).mem_iff.mp hr
    simpa using (List.mem_filter.mp hr').2
  · decide

theorem getTasks_incomplete_sorted_witness :
    taskB.completed = false :=
  (getTasks_incomplete_sorted.1 [taskA, taskB, taskC]).2.1 taskB (by decide)

/-- C3: for a stored task satisfying the completion invariant, two
successive `updateTask` calls each flipping the `completed` flag (the
controller's toggle, the second flip applied to the row the first call
returned) restore the original `completed` flag and the original
null-or-not state of `completed_at`, leaving every non-timestamp field
unchanged. -/
theorem toggle_twice_roundtrip (db : List TaskRow) (id : String)
    (r : TaskRow) (t1 t2 : Nat)
    (hfind : db.find? (fun t => t.id == id) = some r)
    (hinv : TaskInv r) :
    ∃ r1 db1 r2 db2,
      updateTask db id { completed := some (!r.completed) } t1 = .ok (r1, db1) ∧
      updateTask db1 id { completed := some (!r1.completed) } t2 = .ok (r2, db2) ∧
      r2.completed = r.completed ∧
      r2.completed_at.isSome = r.completed_at.isSome ∧
      r2.id = r.id ∧ r2.user_id = r.user_id ∧ r2.title = r.title ∧
      r2.description = r.description ∧ r2.priority = r.priority ∧
      r2.date = r.date := by
  have hfind1 := find?_map_applyUpdates db id
    { completed := some (!r.completed) } t1 r hfind
  refine ⟨applyUpdates r { completed := some (!r.completed) } t1,
    db.map (fun t => if t.id == id then
      applyUpdates t { completed := some (!r.completed) } t1 else t),
    applyUpdates (applyUpdates r { completed := some (!r.completed) } t1)
      { completed := some (!(applyUpdates r { completed := some (!r.completed) } t1).completed) } t2,
    (db.map (fun t => if t.id == id then
      applyUpdates t { completed := some (!r.completed) } t1 else t)).map
      (fun t => if t.id == id then
        applyUpdates t { completed := some (!(applyUpdates r { completed := some (!r.completed) } t1).completed) } t2
      else t),
    ?_, ?_, ?_, ?_, ?_, ?_, ?_, ?_, ?_, ?_⟩
  · unfold updateTask
    rw [hfind]
  · unfold updateTask
    rw [hfind1]
  all_goals
    unfold TaskInv at hinv
    cases hb : r.completed <;> simp_all [applyUpdates]

theorem toggle_twice_roundtrip_witness :
    ∃ r1 db1 r2 db2,
      updateTask [taskA] "A" { completed := some (!taskA.completed) } 7 = .ok (r1, db1) ∧
      updateTask db1 "A" { completed := some (!r1.completed) } 8 = .ok (r2, db2) ∧
      r2.completed = taskA.completed ∧
      r2.completed_at.isSome = taskA.completed_at.isSome ∧
      r2.id = taskA.id ∧ r2.user_id = taskA.user_id ∧ r2.title = taskA.title ∧
      r2.description = taskA.description ∧ r2.priority = taskA.priority ∧
      r2.date = taskA.date :=
  toggle_twice_roundtrip [taskA] "A" taskA 7 8 (by decide) (by decide)

/-- An already-completed row whose completion timestamp is 5. -/
def rowDone : TaskRow :=
  { id := "d", user_id := "u", title := "done", description := none
    priority := .High, date := 20240101, completed := true
    completed_at := some 5, created_at := 1, updated_at := 1 }

/-- C4 counterexample: an update carrying `completed = true` on a task
that is already completed does change `completed_at` — `updateTask`
restamps it with the current time on every update carrying
`completed = true`, not only on a false-to-true transition. -/
theorem completed_at_restamped_counterexample :
    rowDone.completed = true ∧
    rowDone.completed_at = some 5 ∧
    (applyUpdates rowDone { completed := some true } 9).completed_at = some 9 ∧
    (applyUpdates rowDone { completed := some true } 9).completed_at ≠ rowDone.completed_at ∧
    (updateTask [rowDone] "d" { completed := some true } 9).toOption.map
      (fun p => p.1.completed_at) = some (some 9) := by
  refine ⟨rfl, rfl, rfl, by decide, rfl⟩

/-- C4 amended: `completed_at` is set to the current time whenever an
update carries `completed = true` (also when the task is already
completed, where the timestamp is refreshed), cleared whenever an update
carries `completed = false`, and left unchanged — together with the
`completed` flag — when the update does not carry `completed`;
`updated_at` is stamped on every update. -/
theorem completed_at_update_rule (r : TaskRow) (u : TaskUpdates) (now : Nat) :
    (u.completed = some true → (applyUpdates r u now).completed_at = some now) ∧
    (u.completed = some false → (applyUpdates r u now).completed_at = none) ∧
    (u.completed = none → (applyUpdates r u now).completed_at = r.completed_at ∧
      (applyUpdates r u now).completed = r.completed) ∧
    (applyUpdates r u now).updated_at = now := by
  refine ⟨?_, ?_, ?_, rfl⟩ <;> intro h <;> simp [applyUpdates, h]

theorem completed_at_update_rule_witness :
    (applyUpdates rowDone { completed := some true } 9).completed_at = some 9 ∧
    (applyUpdates rowDone { completed := some false } 9).completed_at = none ∧
    (applyUpdates rowDone {} 9).completed_at = rowDone.completed_at :=
  ⟨(completed_at_update_rule rowDone { completed := some true } 9).1 rfl,
   (completed_at_update_rule rowDone { completed := some false } 9).2.1 rfl,
   ((completed_at_update_rule rowDone {} 9).2.2.1 rfl).1⟩

/-- C5: `createTask` fails with the unauthenticated error when there is
no session, whatever the datastore would have answered; when it
succeeds, the created row carries the session's user id and
`completed = false`. -/
theorem createTask_auth_and_fields (input : TaskInput) (newId : String)
    (now : Nat) (db : List TaskRow) (backendErr : Option String) :
    createTask none input newId now db backendErr = .error "User not authenticated" ∧
    (∀ uid r db', createTask (some uid) input newId now db backendErr = .ok (r, db') →
      r.user_id = uid ∧ r.completed = false) := by
  refine ⟨rfl, ?_⟩
  intro uid r db' h
  cases backendErr with
  | none =>
    simp only [createTask, Except.ok.injEq, Prod.mk.injEq] at h
    obtain ⟨h1, h2⟩ := h
    subst h1
    exact ⟨rfl, rfl⟩
  | some e =>
    simp [createTask] at h

theorem createTask_auth_and_fields_witness :
    createdRow.user_id = "u" ∧ createdRow.completed = false :=
  (createTask_auth_and_fields sampleInput "id1" 5 [] none).2
    "u" createdRow [createdRow] (by rfl)

/-- C6: on the AI route, a request without a valid bearer token is
answered 401 whatever else it contains; an authenticated request with
the key configured and an empty (or absent) message is answered 400; an
authenticated, configured, non-empty request during which the upstream
completion call throws is answered 500 with the fixed generic body, and
that response is independent of the upstream error text. -/
theorem postAI_status (tasksResult : Except String (List TaskRow))
    (upstream : Except String (Option String)) :
    (∀ apiKey message,
      (POST none apiKey message tasksResult upstream).status = 401) ∧
    (∀ u k, (POST (some u) (some k) none tasksResult upstream).status = 400) ∧
    (∀ u k m, isBlank m = true →
      (POST (some u) (some k) (some m) tasksResult upstream).status = 400) ∧
    (∀ u k m e, isBlank m = false →
      POST (some u) (some k) (some m) tasksResult (.error e) = ⟨500, genericAIError⟩) ∧
    (∀ u k m e1 e2,
      POST (some u) (some k) (some m) tasksResult (.error e1) =
        POST (some u) (some k) (some m) tasksResult (.error e2)) := by
  refine ⟨fun apiKey message => rfl, fun u k => rfl, ?_, ?_, ?_⟩
  · intro u k m h
    simp [POST, h]
  · intro u k m e h
    cases tasksResult <;> simp [POST, h]
  · intro u k m e1 e2
    cases h : isBlank m
    · simp [POST, h]
    · cases tasksResult <;> simp [POST, h]

theorem postAI_status_witness :
    (POST (some "u") (some "k") (some "") (.ok []) (.ok (some "hi"))).status = 400 ∧
    POST (some "u") (some "k") (some "hello") (.ok []) (.error "upstream boom") =
      ⟨500, genericAIError⟩ :=
  ⟨(postAI_status (.ok []) (.ok (some "hi"))).2.2.1 "u" "k" "" (by decide),
   (postAI_status (.ok []) (.ok none)).2.2.2.1 "u" "k" "hello" "upstream boom" (by decide)⟩

/-- The backend error for a missing profile row (PostgREST single-row
error). -/
def eNoRow : JsError :=
  ⟨some "PGRST116", "JSON object requested, multiple (or no) rows returned"⟩

/-- The backend error for a missing profiles table. -/
def eNoTable : JsError :=
  ⟨some "42P01", "relation public.profiles does not exist"⟩

/-- A backend transport error unrelated to absence. -/
def eBoom : JsError :=
  ⟨some "08006", "connection failure"⟩

/-- A concrete profile row. -/
def sampleProfile : Profile :=
  { id := "p1", user_id := "u", full_name := "Alice", avatar_id := some 1 }

/-- C7: `getProfile` returns null, not an error, when the backend
signals the row was not found (code PGRST116) or the table does not
exist (code 42P01 or a message containing `does not exist`); any other
backend error propagates unchanged; an existing row is returned. -/
theorem getProfile_absence (uid : String) (e : JsError) :
    (e.code = some "PGRST116" → getProfile (some uid) (.error e) = .ok none) ∧
    (e.code = some "42P01" ∨ strIncludes e.message "does not exist" = true →
      getProfile (some uid) (.error e) = .ok none) ∧
    (e.code ≠ some "PGRST116" → e.code ≠ some "42P01" →
      strIncludes e.message "does not exist" = false →
      getProfile (some uid) (.error e) = .error e) ∧
    (∀ p : Profile, getProfile (some uid) (.ok p) = .ok (some p)) := by
  refine ⟨?_, ?_, ?_, fun p => rfl⟩
  · intro h
    simp [getProfile, getProfileInner, h]
  · intro h
    by_cases hp : e.code = some "PGRST116"
    · simp [getProfile, getProfileInner, hp]
    · rcases h with h | h <;> simp [getProfile, getProfileInner, hp, h]
  · intro h1 h2 h3
    simp [getProfile, getProfileInner, h1, h2, h3]

theorem getProfile_absence_witness :
    getProfile (some "u") (.error eNoRow) = .ok none ∧
    getProfile (some "u") (.error eNoTable) = .ok none ∧
    getProfile (some "u") (.error eBoom) = .error eBoom :=
  ⟨(getProfile_absence "u" eNoRow).1 (by decide),
   (getProfile_absence "u" eNoTable).2.1 (Or.inl (by decide)),
   (getProfile_absence "u" eBoom).2.2.1 (by decide) (by decide) (by decide)⟩

/-- The auth provider's missing-session error. -/
def eSessionMissing : AuthError :=
  ⟨"Auth session missing!", none⟩

/-- An auth provider error unrelated to the session. -/
def eNetwork : AuthError :=
  ⟨"Network request failed", some 500⟩

/-- C8: `signOut` resolves without throwing when the provider reports a
session-related condition (a message mentioning the session or 403, or
a 403 status), resolves on success, and throws exactly the remaining
errors. -/
theorem signOut_session_errors (e : AuthError) :
    signOut none = .ok () ∧
    (sessionRelated e = true → signOut (some e) = .ok ()) ∧
    (sessionRelated e = false → signOut (some e) = .error e) := by
  refine ⟨rfl, ?_, ?_⟩ <;> intro h <;> simp [signOut, h]

theorem signOut_session_errors_witness :
    signOut (some eSessionMissing) = .ok () ∧
    signOut (some eNetwork) = .error eNetwork :=
  ⟨(signOut_session_errors eSessionMissing).2.1 (by decide),
   (signOut_session_errors eNetwork).2.2 (by decide)⟩

/-- The controller state used to instantiate the toggle-failure claim. -/
def sampleState : ControllerState :=
  { tasks := [dbTaskToUITask taskA], animating := [], history := [] }

/-- C9: when the toggled task is in the visible list and the
`updateTask` call throws, `toggleTask` surfaces the failure and leaves
the visible list, the animating set and the completed-history buffer
exactly as they were. -/
theorem toggleTask_error_leaves_state (s : ControllerState) (id : String)
    (e : String) (task : UITask)
    (hfind : s.tasks.find? (fun t => t.id == id) = some task) :
    toggleTask s id (.error e) = (s, .failed e) := by
  simp [toggleTask, hfind]

theorem toggleTask_error_leaves_state_witness :
    toggleTask sampleState "A" (.error "network down") =
      (sampleState, .failed "network down") :=
  toggleTask_error_leaves_state sampleState "A" "network down"
    (dbTaskToUITask taskA) (by decide)

/-- C10: `hasProfile` never throws: whenever `getProfile` throws —
unauthenticated session, missing table, transport failure, anything —
`hasProfile` returns false, and when `getProfile` returns, `hasProfile`
returns whether a profile is present. -/
theorem hasProfile_never_throws (user : Option String)
    (backend : Except JsError Profile) :
    (∀ e, getProfile user backend = .error e → hasProfile user backend = false) ∧
    (∀ p, getProfile user backend = .ok p → hasProfile user backend = p.isSome) := by
  constructor <;> intro x h <;> simp [hasProfile, h]

theorem hasProfile_never_throws_witness :
    hasProfile none (.ok sampleProfile) = false :=
  (hasProfile_never_throws none (.ok sampleProfile)).1
    ⟨none, "User not authenticated"⟩ (by rfl)

end TaskApp
